import Mathlib

/-!
Verification of the `generate_seo.py` static-site generator of the
insight-chronicles repository.

The Python program is embedded shallowly:

* JSON article records and draft records become the structures `Article` and
  `Draft`.  Per the data model (spec section 3), persisted article records carry
  all their keys, so dictionary accesses such as `a.get("desc", "")` on store
  records are embedded as plain field projections.  Draft fields `thumb_og` and
  `tags` are optional (`dict.get` with a default) and are embedded as `Option`.
* Python strings manipulated by the generator are embedded as `List Char`;
  Python string comparison (used as a sort key) is the lexicographic order on
  `List Char`, which coincides with Python's code-point comparison.
* `str.replace` (replace all non-overlapping occurrences, left to right) is
  embedded as `replaceAll`, written with a structural fuel argument so that it
  evaluates by kernel reduction.  All patterns passed to it by this program are
  non-empty string literals.
* `sorted(key=lambda x: x.get("date", ""), reverse=True)` is a stable sort by
  descending date.  It is embedded as `List.insertionSort` with the relation
  `dateKey b ≤ dateKey a`; a stable sort of a list with respect to a total
  preorder is unique, so this is extensionally the same function as Python's
  stable sort.
* File writes performed by `publish_drafts` are made explicit: the embedding
  returns the list of `(path, content)` pairs written, in order.
* `update_index_html` reads and rewrites one file; it is embedded as a function
  from the optional file content (`none` when `index.html` does not exist) to
  the optional new content.
-/

/-- Article record as persisted in `articles.json` (spec section 3 and the
`articles.append` call in `publish_drafts`). -/
structure Article where
  title : String
  slug : String
  url : String
  desc : String
  date : String
  thumb : String
  thumb_og : String
  tags : List String
  content_html : String
deriving DecidableEq, Repr

/-- Draft record read from a `drafts/*.json` file.  `thumb_og` and `tags` are
accessed with `dict.get` defaults in the source and are therefore optional. -/
structure Draft where
  title : String
  desc : String
  slug : String
  date : String
  thumb : String
  thumb_og : Option String
  tags : Option (List String)
  content : String
deriving DecidableEq, Repr

/-- Python constant `SITE_URL` in `generate_seo.py`. -/
def SITE_URL : String := "https://insight-chronicles.com"

/-- Python constant `SITE_NAME`. -/
def SITE_NAME : String := "Insight Chronicles"

/-- Python constant `AUTO_START`, the literal marker comment opening the
auto-managed homepage region. -/
def AUTO_START : List Char := "<!-- AUTO-LATEST-ARTICLES:START -->".toList

/-- Python constant `AUTO_END`, the literal marker comment closing the
auto-managed homepage region. -/
def AUTO_END : List Char := "<!-- AUTO-LATEST-ARTICLES:END -->".toList

/-- Static category configuration `{file, title, desc}` (dict `CATEGORIES`). -/
structure CategoryInfo where
  file : String
  title : String
  desc : String
deriving DecidableEq, Repr

/-- Python constant `CATEGORIES`: category key paired with its page metadata,
in dict insertion order. -/
def CATEGORIES : List (String × CategoryInfo) :=
  [("History",
    CategoryInfo.mk "history.html" "History & Civilisations"
      "Long-form essays exploring empires, trade networks, institutions and the foundations of power."),
   ("Geopolitics",
    CategoryInfo.mk "geopolitics.html" "Geopolitics & Strategy"
      "Analysis of power, alliances, industrial policy, and the evolving world order."),
   ("Technology",
    CategoryInfo.mk "technology.html" "Technology & AI"
      "Deep dives into technology, AI, manufacturing capability, and the systems behind modern power."),
   ("Governance",
    CategoryInfo.mk "governance.html" "Governance & Institutions"
      "Articles exploring reforms, public infrastructure, institutional design, and systems that scale.")]

/-- Fuel-indexed worker for `replaceAll`.  With fuel at least the length of the
subject string this is Python's `str.replace` for a non-empty pattern: scan left
to right, replace every non-overlapping occurrence, and continue after the
replaced occurrence. -/
def replaceAllAux (pat repl : List Char) : Nat → List Char → List Char
  | _, [] => []
  | 0, s => s
  | fuel + 1, c :: rest =>
    if pat.isPrefixOf (c :: rest) then
      repl ++ replaceAllAux pat repl fuel (rest.drop (pat.length - 1))
    else
      c :: replaceAllAux pat repl fuel rest

/-- Python `s.replace(pat, repl)` for the non-empty literal patterns used by
this program. -/
def replaceAll (pat repl s : List Char) : List Char :=
  replaceAllAux pat repl s.length s

/-- Index of the leftmost occurrence of `pat` in `s`, or `none`.  This models
both Python's substring containment test (`pat in s`) and the leftmost-match
search of `re.sub` for the literal-delimited pattern used in
`update_index_html`. -/
def findSub (pat : List Char) : List Char → Option Nat
  | [] => if pat.isPrefixOf ([] : List Char) then some 0 else none
  | c :: rest =>
    if pat.isPrefixOf (c :: rest) then some 0
    else (findSub pat rest).map (fun n => n + 1)

/-- Python `pat in s` substring containment. -/
def containsSub (pat s : List Char) : Bool := (findSub pat s).isSome

/-- `xml.sax.saxutils.escape`: replace `&`, then `>`, then `<` by their
entities, each with `str.replace`, in that order (as in the CPython source). -/
def escape (s : List Char) : List Char :=
  replaceAll "<".toList "&lt;".toList
    (replaceAll ">".toList "&gt;".toList
      (replaceAll "&".toList "&amp;".toList s))

/-- The `{{TAGLINE}}` replacement value in `build_article_html`:
`", ".join(draft.get("tags", [])) or "Insight Chronicles"`.  The joined string
is falsy in Python exactly when it is empty. -/
def tagline (d : Draft) : String :=
  let joined := String.intercalate ", " (d.tags.getD [])
  if joined = "" then "Insight Chronicles" else joined

/-- The `replacements` dict of `build_article_html`, in insertion order (which
is iteration order in Python). -/
def replacements (d : Draft) : List (List Char × List Char) :=
  [("\x7b\x7bTITLE\x7d\x7d".toList, d.title.toList),
   ("\x7b\x7bDESCRIPTION\x7d\x7d".toList, d.desc.toList),
   ("\x7b\x7bSLUG\x7d\x7d".toList, d.slug.toList),
   ("\x7b\x7bDATE\x7d\x7d".toList, d.date.toList),
   ("\x7b\x7bTHUMB\x7d\x7d".toList, d.thumb.toList),
   ("\x7b\x7bTHUMB_OG\x7d\x7d".toList, (d.thumb_og.getD d.thumb).toList),
   ("\x7b\x7bTAGLINE\x7d\x7d".toList, (tagline d).toList),
   ("\x7b\x7bCONTENT\x7d\x7d".toList, d.content.toList)]

/-- `build_article_html`: one `str.replace` pass per placeholder key, applied
over the whole template, in dict iteration order. -/
def build_article_html (template : List Char) (d : Draft) : List Char :=
  (replacements d).foldl (fun h kv => replaceAll kv.1 kv.2 h) template

/-- The article record appended by `publish_drafts` for a newly published
draft. -/
def draft_record (d : Draft) : Article :=
  { title := d.title
    slug := d.slug
    url := SITE_URL ++ "/" ++ d.slug
    desc := d.desc
    date := d.date
    thumb := d.thumb
    thumb_og := d.thumb_og.getD d.thumb
    tags := d.tags.getD []
    content_html := d.content }

/-- Loop body of `publish_drafts`.  `existing` is the slug set computed once
before the loop (it is not extended as drafts are published); `arts` is the
growing article list, `writes` the `(path, content)` file writes so far, and
`n` the published counter. -/
def publishGo (template : List Char) (existing : List String) :
    List Article → List (String × List Char) → Nat → List Draft →
    List Article × List (String × List Char) × Nat
  | arts, writes, n, [] => (arts, writes, n)
  | arts, writes, n, d :: ds =>
    if d.slug ∈ existing then
      publishGo template existing arts writes n ds
    else
      publishGo template existing (arts ++ [draft_record d])
        (writes ++ [(d.slug, build_article_html template d)]) (n + 1) ds

/-- `publish_drafts`: returns the final article list, the HTML files written
(path and content, in order), and the published count. -/
def publish_drafts (template : List Char) (articles : List Article)
    (drafts : List Draft) : List Article × List (String × List Char) × Nat :=
  publishGo template (articles.map Article.slug) articles [] 0 drafts

/-- Sort key of every `sorted(..., key=lambda x: x.get("date", ""), ...)` call:
the date string, compared as a Python string (code-point lexicographic). -/
def dateKey (a : Article) : List Char := a.date.toList

/-- `sorted(articles, key=lambda x: x.get("date", ""), reverse=True)`: the
stable sort by descending date used by every renderer.  A stable sort with
respect to a total preorder is unique, so insertion sort is extensionally the
Python sort. -/
def sortByDateDesc (articles : List Article) : List Article :=
  List.insertionSort (fun a b => dateKey b ≤ dateKey a) articles

/-- One `<span class="ic-tag">…</span>` fragment of a homepage card. -/
def tag_span (t : String) : List Char :=
  "<span class=\"ic-tag\">".toList ++ escape t.toList ++ "</span>".toList

/-- The list comprehension of `make_homepage_cards`: one rendered span per
element of `tags[:3]`. -/
def homepage_tag_span_list (tags : List String) : List (List Char) :=
  (tags.take 3).map tag_span

/-- The `tag_spans` local of `make_homepage_cards`:
`"".join(['<span class="ic-tag">…</span>' for t in tags[:3]])`. -/
def homepage_tag_spans (tags : List String) : List Char :=
  (homepage_tag_span_list tags).flatten

/-- One homepage card block of `make_homepage_cards` (the f-string appended to
`blocks`), with every interpolated field HTML-escaped as in the source. -/
def homepage_card (a : Article) : List Char :=
  let title := escape a.title.toList
  let slug := escape a.slug.toList
  let desc := escape a.desc.toList
  let date := escape a.date.toList
  let thumb := escape a.thumb.toList
  "\n        <article class=\"ic-article-card\">\n          <a href=\"".toList
    ++ slug ++ "\" class=\"ic-article-thumb-link\">\n            <img src=\"".toList
    ++ thumb ++ "\" alt=\"".toList ++ title
    ++ "\" class=\"ic-article-thumb\" />\n          </a>\n          <div>\n            <div class=\"ic-article-tags\">".toList
    ++ homepage_tag_spans a.tags
    ++ "</div>\n            <h3 class=\"ic-article-title\"><a href=\"".toList
    ++ slug ++ "\">".toList ++ title
    ++ "</a></h3>\n            <p class=\"ic-article-meta\">".toList ++ date
    ++ "</p>\n            <p class=\"ic-article-excerpt\">".toList ++ desc
    ++ "</p>\n            <a href=\"".toList ++ slug
    ++ "\" class=\"ic-article-read\">Read article →</a>\n          </div>\n        </article>\n        ".toList

/-- `make_homepage_cards(articles, limit)`: the top `limit` articles by date
descending, rendered as card blocks joined with a newline. -/
def make_homepage_cards (articles : List Article) (limit : Nat) : List Char :=
  List.intercalate "\n".toList (((sortByDateDesc articles).take limit).map homepage_card)

/-- One parsed chunk of a `re.sub` replacement template: a run of literal
characters, or a reference to a capture group. -/
inductive ReplChunk
  | lit (cs : List Char)
  | group (n : Nat)
deriving DecidableEq, Repr

/-- An exception raised while `pattern.sub` compiles its replacement string as
a template: `re.error` for a bad escape, a trailing lone backslash, an invalid
group reference, a malformed `\g<...>` name, or an out-of-range octal escape,
and `IndexError` for an unknown group name.  `update_index_html` catches none
of them — any such exception propagates and aborts the whole run before the
homepage is written — so only the raised/not-raised distinction is observable
and the embedding represents every such exception by this one value. -/
inductive ReError
  | templateError
deriving DecidableEq, Repr

/-- ASCII whitespace accepted by Python `int()` around a numeric string. -/
def isPyWs (c : Char) : Bool :=
  c = ' ' || c = '\t' || c = '\n' || c = '\r' || c = Char.ofNat 11 || c = Char.ofNat 12

/-- Drop the trailing characters satisfying `p`. -/
def dropWhileRight (p : Char → Bool) (cs : List Char) : List Char :=
  (cs.reverse.dropWhile p).reverse

/-- Value of a digit string with single underscores allowed between digits
(continuation after the first digit), as accepted by Python `int()`. -/
def digitsUGo (acc : Nat) : List Char → Option Nat
  | [] => some acc
  | '_' :: c :: rest =>
    if c.isDigit then digitsUGo (acc * 10 + (c.toNat - 48)) rest else none
  | '_' :: [] => none
  | c :: rest =>
    if c.isDigit then digitsUGo (acc * 10 + (c.toNat - 48)) rest else none

/-- Digit string with single underscores between digits, as in Python
`int()`. -/
def digitsUnderscoreVal : List Char → Option Nat
  | [] => none
  | c :: rest => if c.isDigit then digitsUGo (c.toNat - 48) rest else none

/-- Python `int(name)` for the strings reachable inside `\g<...>`: optional
surrounding ASCII whitespace, an optional sign, then digits with single
underscores between them.  (CPython also accepts Unicode whitespace and
digits; as with dates, the embedding idealizes to ASCII.) -/
def intName (cs : List Char) : Option Int :=
  match dropWhileRight isPyWs (cs.dropWhile isPyWs) with
  | '+' :: rest => (digitsUnderscoreVal rest).map (fun n => (n : Int))
  | '-' :: rest => (digitsUnderscoreVal rest).map (fun n => -(n : Int))
  | t => (digitsUnderscoreVal t).map (fun n => (n : Int))

/-- Python `str.isidentifier`, restricted to ASCII (the embedding's usual
idealization): a letter or underscore followed by letters, digits or
underscores. -/
def isIdentAscii (cs : List Char) : Bool :=
  match cs with
  | [] => false
  | c :: rest => (c.isAlpha || c = '_') && rest.all (fun d => d.isAlphanum || d = '_')

/-- `Tokenizer.getuntil(">")` reading the name of a `\g<...>` reference: raw
characters up to the terminating `>`, where a backslash always pairs with the
following character (so `\>` does not terminate, and a trailing lone
backslash is an error), and an empty or unterminated name is an error. -/
def gnameGo (acc : List Char) : List Char → Except ReError (List Char × List Char)
  | [] => .error .templateError
  | '\\' :: [] => .error .templateError
  | '\\' :: c :: rest => gnameGo (acc ++ ['\\', c]) rest
  | '>' :: rest => if acc.isEmpty then .error .templateError else .ok (acc, rest)
  | c :: rest => gnameGo (acc ++ [c]) rest

/-- Resolve a `\g<name>` reference against this program's fixed pattern,
which has exactly one unnamed capture group (`groupindex` is empty and
`state.groups = 1`): an identifier name is an unknown group name; otherwise
the name goes through `int()`, negative or non-numeric names are bad group
names, and any index above 1 (including everything at or above `MAXGROUPS`)
is an invalid group reference. -/
def resolveGroupName (name : List Char) : Except ReError Nat :=
  if isIdentAscii name then .error .templateError
  else
    match intName name with
    | none => .error .templateError
    | some i =>
      if i < 0 then .error .templateError
      else if 1 < i then .error .templateError
      else .ok i.toNat

/-- The `ESCAPES` table of `re._parser` (`\a \b \f \n \r \t \v \\`). -/
def replEscape (c : Char) : Option Char :=
  if c = 'a' then some (Char.ofNat 7)
  else if c = 'b' then some (Char.ofNat 8)
  else if c = 'f' then some (Char.ofNat 12)
  else if c = 'n' then some (Char.ofNat 10)
  else if c = 'r' then some (Char.ofNat 13)
  else if c = 't' then some (Char.ofNat 9)
  else if c = 'v' then some (Char.ofNat 11)
  else if c = '\\' then some '\\'
  else none

/-- Octal digit test (`OCTDIGITS`). -/
def isOct (c : Char) : Bool := '0' ≤ c && c ≤ '7'

/-- Digit value of an ASCII digit. -/
def digv (c : Char) : Nat := c.toNat - 48

/-- Close the pending literal run of the template scanner. -/
def flushLit (lit : List Char) : List ReplChunk :=
  if lit.isEmpty then [] else [ReplChunk.lit lit]

/-- Handler for one backslash escape of the replacement template, given the
characters after the backslash; follows CPython `re._parser.parse_template`
case by case: `\g<...>` first, then `\0` with up to two octal digits, then
`\1..\99` group references and three-digit octal escapes, then the
`ESCAPES` table, the bad-escape error for any other ASCII letter, and any
other escaped character kept literally together with its backslash.  Returns
the literal characters to append (left) or a group index (right), with the
remaining input. -/
def ptEsc : List Char → Except ReError ((List Char × List Char) ⊕ (Nat × List Char))
  | [] => .error .templateError
  | c :: rest =>
    if c = 'g' then
      match rest with
      | '<' :: rest2 =>
        match gnameGo [] rest2 with
        | .error e => .error e
        | .ok (name, rest3) =>
          match resolveGroupName name with
          | .error e => .error e
          | .ok i => .ok (.inr (i, rest3))
      | _ => .error .templateError
    else if c = '0' then
      match rest with
      | d1 :: rest1 =>
        if isOct d1 then
          match rest1 with
          | d2 :: rest2 =>
            if isOct d2 then .ok (.inl ([Char.ofNat (8 * digv d1 + digv d2)], rest2))
            else .ok (.inl ([Char.ofNat (digv d1)], d2 :: rest2))
          | [] => .ok (.inl ([Char.ofNat (digv d1)], []))
        else .ok (.inl ([Char.ofNat 0], d1 :: rest1))
      | [] => .ok (.inl ([Char.ofNat 0], []))
    else if c.isDigit then
      match rest with
      | d2 :: rest2 =>
        if d2.isDigit then
          match rest2 with
          | d3 :: rest3 =>
            if isOct c && isOct d2 && isOct d3 then
              if 255 < 64 * digv c + 8 * digv d2 + digv d3 then .error .templateError
              else .ok (.inl ([Char.ofNat (64 * digv c + 8 * digv d2 + digv d3)], rest3))
            else if 1 < 10 * digv c + digv d2 then .error .templateError
            else .ok (.inr (10 * digv c + digv d2, rest2))
          | [] =>
            if 1 < 10 * digv c + digv d2 then .error .templateError
            else .ok (.inr (10 * digv c + digv d2, []))
        else if 1 < digv c then .error .templateError
        else .ok (.inr (digv c, d2 :: rest2))
      | [] =>
        if 1 < digv c then .error .templateError
        else .ok (.inr (digv c, []))
    else
      match replEscape c with
      | some ch => .ok (.inl ([ch], rest))
      | none =>
        if c.isAlpha then .error .templateError
        else .ok (.inl (['\\', c], rest))

/-- Fuel-indexed scanner for `parse_template1`; `lit` is the pending literal
run, flushed before each group reference.  With fuel at least the length of
the remaining input this follows CPython `re._parser.parse_template`: plain
characters extend the literal run and each backslash escape is handled by
`ptEsc`.  CPython's tokenizer reads one token ahead, which can only report
an error one token earlier than this scanner; since all template errors
collapse to the single `ReError` value, the two agree on every input. -/
def ptGo (fuel : Nat) (lit : List Char) (s : List Char) : Except ReError (List ReplChunk) :=
  match fuel, s with
  | _, [] => .ok (flushLit lit)
  | 0, _ => .ok (flushLit lit)
  | fuel + 1, c :: rest =>
    if c = '\\' then
      match ptEsc rest with
      | .error e => .error e
      | .ok (.inl (cs, rest2)) => ptGo fuel (lit ++ cs) rest2
      | .ok (.inr (n, rest2)) =>
        match ptGo fuel [] rest2 with
        | .error e => .error e
        | .ok tail => .ok (flushLit lit ++ ReplChunk.group n :: tail)
    else ptGo fuel (lit ++ [c]) rest

/-- CPython `re._parser.parse_template`, specialized to this program's fixed
pattern (one unnamed capture group): the replacement string of `pattern.sub`
parsed into literal runs and group references, or the exception it raises. -/
def parse_template1 (repl : List Char) : Except ReError (List ReplChunk) :=
  ptGo repl.length [] repl

/-- Expansion of a compiled template at one match of the marker pattern:
group 0 is the whole match, group 1 the lazily captured region between the
markers (the only group indices the parser can produce). -/
def expand_template (whole mid : List Char) (chunks : List ReplChunk) : List Char :=
  (chunks.map (fun ch =>
    match ch with
    | ReplChunk.lit cs => cs
    | ReplChunk.group 0 => whole
    | ReplChunk.group _ => mid)).flatten

/-- Fuel-indexed worker modelling `pattern.sub` for the homepage marker
pattern `re.escape(AUTO_START) + r"(.*?)" + re.escape(AUTO_END)` with
`re.DOTALL`, applied to an already-compiled replacement template: repeatedly
find the leftmost start marker, then the closest end marker after it (lazy
middle), splice in the expanded template, and continue after the match.  With
fuel at least the length of the subject this is exactly the match-and-replace
loop of `pattern.sub` (all non-overlapping matches, left to right). -/
def reSubAux (startPat endPat : List Char) (chunks : List ReplChunk) :
    Nat → List Char → List Char
  | 0, s => s
  | fuel + 1, s =>
    match findSub startPat s with
    | none => s
    | some p =>
      let rest := s.drop (p + startPat.length)
      match findSub endPat rest with
      | none => s
      | some q =>
        s.take p
          ++ expand_template (startPat ++ rest.take q ++ endPat) (rest.take q) chunks
          ++ reSubAux startPat endPat chunks fuel (rest.drop (q + endPat.length))

/-- The match-and-replace loop of
`pattern.sub(AUTO_START + "\n" + new_cards + "\n" + AUTO_END, html)` in
`update_index_html`, given the compiled replacement template. -/
def reSubMarkers (chunks : List ReplChunk) (s : List Char) : List Char :=
  reSubAux AUTO_START AUTO_END chunks s.length s

/-- The replacement string passed to `pattern.sub` by `update_index_html`. -/
def homepage_replacement (articles : List Article) : List Char :=
  AUTO_START ++ "\n".toList ++ make_homepage_cards articles 6 ++ "\n".toList ++ AUTO_END

/-- `update_index_html`: `none` stands for a missing `index.html` (the
`os.path.exists` guard); otherwise the argument is the file's content.
Missing markers leave the content exactly as read (the function returns
before calling `pattern.sub` or writing, so no template exception can occur
on that path).  Otherwise `pattern.sub` first compiles its replacement string
as a template — raising even when the pattern happens not to match — and then
splices the expanded template over every match; an exception propagates (the
run aborts, nothing is written). -/
def update_index_html (indexHtml : Option (List Char)) (articles : List Article) :
    Except ReError (Option (List Char)) :=
  match indexHtml with
  | none => .ok none
  | some html =>
    if containsSub AUTO_START html = false ∨ containsSub AUTO_END html = false then
      .ok (some html)
    else
      match parse_template1 (homepage_replacement articles) with
      | .error e => .error e
      | .ok chunks => .ok (some (reSubMarkers chunks html))

/-- One card of the articles-index page (`make_articles_page` loop body); the
`tags` div renders every tag, joined with a space. -/
def article_page_card (a : Article) : List Char :=
  let title := escape a.title.toList
  let slug := escape a.slug.toList
  let desc := escape a.desc.toList
  let date := escape a.date.toList
  let thumb := escape a.thumb.toList
  let tags_html := List.intercalate " ".toList
    (a.tags.map (fun t => "<span class=\"tag\">".toList ++ escape t.toList ++ "</span>".toList))
  "\n        <article class=\"card\">\n          <a href=\"".toList
    ++ slug ++ "\" class=\"thumbwrap\">\n            <img src=\"".toList
    ++ thumb ++ "\" alt=\"".toList ++ title
    ++ "\" />\n          </a>\n          <div class=\"cardbody\">\n            <div class=\"tags\">".toList
    ++ tags_html ++ "</div>\n            <h2><a href=\"".toList ++ slug ++ "\">".toList ++ title
    ++ "</a></h2>\n            <p class=\"meta\">".toList ++ date
    ++ "</p>\n            <p class=\"desc\">".toList ++ desc
    ++ "</p>\n            <a class=\"read\" href=\"".toList ++ slug
    ++ "\">Read article →</a>\n          </div>\n        </article>\n        ".toList

/-- The card blocks of the articles-index page, in rendered order. -/
def make_articles_page_cards (articles : List Article) : List (List Char) :=
  (sortByDateDesc articles).map article_page_card

/-- `make_articles_page`: the full page shell around `''.join(cards)`. -/
def make_articles_page (articles : List Article) : List Char :=
  ("<!doctype html>\n<html lang=\"en\">\n<head>\n  <meta charset=\"utf-8\" />\n  <meta name=\"viewport\" content=\"width=device-width,initial-scale=1\" />\n  <title>Articles – ".toList
      ++ SITE_NAME.toList
      ++ "</title>\n  <meta name=\"description\" content=\"All long-form articles published on ".toList
      ++ SITE_NAME.toList
      ++ ".\" />\n  <link rel=\"stylesheet\" href=\"styles.css\" />\n</head>\n<body class=\"ic-body\">\n  <div class=\"ic-topstrip\">All articles • ".toList
      ++ SITE_NAME.toList
      ++ "</div>\n\n  <header class=\"ic-header\">\n    <div class=\"ic-container ic-header-inner\">\n      <a href=\"index.html\" class=\"ic-logo\">\n        <span class=\"ic-logo-mark\">IC</span>\n        <span>\n          <span class=\"ic-logo-title\">".toList
      ++ SITE_NAME.toList
      ++ "</span>\n          <span class=\"ic-logo-sub\">Long-form global analysis</span>\n        </span>\n      </a>\n\n      <nav class=\"ic-nav\">\n        <a href=\"index.html\" class=\"ic-nav-link\">Home</a>\n        <a href=\"articles.html\" class=\"ic-nav-link ic-nav-link-active\">Articles</a>\n        <a href=\"search.html\" class=\"ic-nav-link\">Search</a>\n      </nav>\n    </div>\n  </header>\n\n  <main class=\"ic-main\">\n    <div class=\"ic-container\">\n      <div class=\"ic-section-header\">\n        <h1>All Articles</h1>\n        <p>Newest first.</p>\n      </div>\n\n      <div class=\"ic-articles-grid\">\n        ".toList)
    ++ (make_articles_page_cards articles).flatten
    ++ ("\n      </div>\n    </div>\n  </main>\n\n  <footer class=\"ic-footer\">\n    <div class=\"ic-container ic-footer-bottom\">© 2025 ".toList
      ++ SITE_NAME.toList
      ++ ". All rights reserved.</div>\n  </footer>\n</body>\n</html>\n".toList)

/-- The `filtered` list of `make_category_page`: articles whose `tags` list
contains the category key (Python `tag_name in a.get("tags", [])` is exact
element membership), sorted by date descending. -/
def make_category_page_articles (tag_name : String) (articles : List Article) :
    List Article :=
  sortByDateDesc (articles.filter (fun a => decide (tag_name ∈ a.tags)))

/-- One card of a category page (`make_category_page` loop body). -/
def category_card (a : Article) : List Char :=
  let title := escape a.title.toList
  let slug := escape a.slug.toList
  let desc := escape a.desc.toList
  let date := escape a.date.toList
  let thumb := escape a.thumb.toList
  "\n        <article class=\"ic-article-card\">\n          <a href=\"".toList
    ++ slug ++ "\" class=\"ic-article-thumb-link\">\n            <img src=\"".toList
    ++ thumb ++ "\" alt=\"".toList ++ title
    ++ "\" class=\"ic-article-thumb\" />\n          </a>\n          <div>\n            <h3 class=\"ic-article-title\"><a href=\"".toList
    ++ slug ++ "\">".toList ++ title
    ++ "</a></h3>\n            <p class=\"ic-article-meta\">".toList ++ date
    ++ "</p>\n            <p class=\"ic-article-excerpt\">".toList ++ desc
    ++ "</p>\n            <a href=\"".toList ++ slug
    ++ "\" class=\"ic-article-read\">Read article →</a>\n          </div>\n        </article>\n        ".toList

/-- The `cards_html` local of `make_category_page`: the joined cards, or the
placeholder paragraph when no article matches. -/
def category_cards_html (tag_name : String) (articles : List Article) : List Char :=
  let cards := (make_category_page_articles tag_name articles).map category_card
  if cards.isEmpty then
    "<p style='color:#9ca3af;'>No articles published yet. Coming soon.</p>".toList
  else
    List.intercalate "\n".toList cards

/-- `make_category_page`: the full category page shell. -/
def make_category_page (tag_name : String) (info : CategoryInfo) (articles : List Article) :
    List Char :=
  ("<!doctype html>\n<html lang=\"en\">\n<head>\n  <meta charset=\"utf-8\" />\n  <meta name=\"viewport\" content=\"width=device-width,initial-scale=1\" />\n  <title>".toList
      ++ escape info.title.toList ++ " – ".toList ++ SITE_NAME.toList
      ++ "</title>\n  <meta name=\"description\" content=\"".toList ++ escape info.desc.toList
      ++ "\" />\n  <link rel=\"stylesheet\" href=\"styles.css\" />\n</head>\n<body class=\"ic-body\">\n\n<header class=\"ic-header\">\n  <div class=\"ic-container ic-header-inner\">\n    <a href=\"index.html\" class=\"ic-logo\">\n      <span class=\"ic-logo-mark\">IC</span>\n      <span>\n        <span class=\"ic-logo-title\">".toList
      ++ SITE_NAME.toList
      ++ "</span>\n        <span class=\"ic-logo-sub\">Long-form global analysis</span>\n      </span>\n    </a>\n\n    <nav class=\"ic-nav\">\n      <a href=\"index.html\" class=\"ic-nav-link\">Home</a>\n      <a href=\"articles.html\" class=\"ic-nav-link\">Articles</a>\n      <a href=\"search.html\" class=\"ic-nav-link\">Search</a>\n    </nav>\n  </div>\n</header>\n\n<main class=\"ic-main\">\n  <div class=\"ic-container\">\n    <section class=\"ic-sidebar-block\">\n      <h1 style=\"margin-top:0;\">".toList
      ++ escape info.title.toList ++ "</h1>\n      <p style=\"color:#cbd5f5;\">".toList
      ++ escape info.desc.toList
      ++ "</p>\n    </section>\n\n    <section class=\"ic-sidebar-block\">\n      <h2 style=\"margin-top:0;\">Articles</h2>\n      ".toList
      ++ category_cards_html tag_name articles
      ++ "\n    </section>\n  </div>\n</main>\n\n<footer class=\"ic-footer\">\n  <div class=\"ic-container ic-footer-bottom\">© 2025 ".toList
      ++ SITE_NAME.toList
      ++ ". All rights reserved.</div>\n</footer>\n\n</body>\n</html>\n".toList)

/-- The three fixed sitemap URL entries (home, articles index, search). -/
def sitemap_fixed : List (List Char) :=
  ["  <url><loc>".toList ++ SITE_URL.toList ++ "/</loc><priority>1.0</priority></url>".toList,
   "  <url><loc>".toList ++ SITE_URL.toList ++ "/articles.html</loc><priority>0.9</priority></url>".toList,
   "  <url><loc>".toList ++ SITE_URL.toList ++ "/search.html</loc><priority>0.7</priority></url>".toList]

/-- One sitemap entry per configured category. -/
def sitemap_category_url (info : CategoryInfo) : List Char :=
  "  <url><loc>".toList ++ SITE_URL.toList ++ "/".toList ++ info.file.toList
    ++ "</loc><priority>0.7</priority></url>".toList

/-- One sitemap entry per article (the article's absolute URL, escaped). -/
def sitemap_article_url (a : Article) : List Char :=
  "  <url><loc>".toList ++ escape a.url.toList ++ "</loc><priority>0.8</priority></url>".toList

/-- The `urls` list of `make_sitemap`, in emitted order: three fixed entries,
one entry per configured category, then one entry per article sorted by date
descending. -/
def make_sitemap_urls (articles : List Article) : List (List Char) :=
  sitemap_fixed
    ++ CATEGORIES.map (fun c => sitemap_category_url c.2)
    ++ (sortByDateDesc articles).map sitemap_article_url

/-- `make_sitemap`: the URL entries joined with `chr(10)` inside the urlset
shell. -/
def make_sitemap (articles : List Article) : List Char :=
  "<?xml version=\"1.0\" encoding=\"UTF-8\"?>\n<urlset xmlns=\"http://www.sitemaps.org/schemas/sitemap/0.9\">\n".toList
    ++ List.intercalate "\n".toList (make_sitemap_urls articles)
    ++ "\n</urlset>\n".toList

/-- Year field of `strptime("%Y-%m-%d")`: exactly four digits. -/
def year_ok (ys : List Char) : Bool :=
  ys.length = 4 && ys.all Char.isDigit

/-- Month field of `strptime`: the regex `1[0-2]|0[1-9]|[1-9]` (one or two
digits, value 1 to 12, no `00`). -/
def month_ok (ms : List Char) : Bool :=
  match ms with
  | [c] => decide ('1' ≤ c ∧ c ≤ '9')
  | [a, b] => decide ((a = '0' ∧ '1' ≤ b ∧ b ≤ '9') ∨ (a = '1' ∧ '0' ≤ b ∧ b ≤ '2'))
  | _ => false

/-- Day field of `strptime`: the regex `3[01]|[12]\d|0[1-9]|[1-9]` (one or two
digits, value 1 to 31, no `00`). -/
def day_ok (ds : List Char) : Bool :=
  match ds with
  | [c] => decide ('1' ≤ c ∧ c ≤ '9')
  | [a, b] => decide ((a = '0' ∧ '1' ≤ b ∧ b ≤ '9')
      ∨ ((a = '1' ∨ a = '2') ∧ '0' ≤ b ∧ b ≤ '9')
      ∨ (a = '3' ∧ (b = '0' ∨ b = '1')))
  | _ => false

/-- Numeric value of a digit string. -/
def digitsVal (cs : List Char) : Nat :=
  cs.foldl (fun n c => n * 10 + (c.toNat - '0'.toNat)) 0

/-- Gregorian leap-year test, as in `datetime`. -/
def isLeap (y : Nat) : Bool :=
  decide (y % 4 = 0 ∧ (y % 100 ≠ 0 ∨ y % 400 = 0))

/-- Number of days of a month, as validated by the `datetime` constructor. -/
def days_in_month (y m : Nat) : Nat :=
  if m = 2 then (if isLeap y then 29 else 28)
  else if m = 4 ∨ m = 6 ∨ m = 9 ∨ m = 11 then 30
  else 31

/-- `datetime.strptime(s, "%Y-%m-%d")`, reduced to the date triple it yields:
the string must be fully consumed by `\d\d\d\d - month - day` (so it splits on
`-` into exactly three all-digit fields of the right shapes), and the triple
must be a valid proleptic-Gregorian date with year at least 1 (`datetime`
raises `ValueError` otherwise, which `make_rss` catches). -/
def parse_ymd (s : List Char) : Option (Nat × Nat × Nat) :=
  match s.splitOn '-' with
  | [ys, ms, ds] =>
    if year_ok ys && month_ok ms && day_ok ds then
      let y := digitsVal ys
      let m := digitsVal ms
      let d := digitsVal ds
      if 1 ≤ y ∧ d ≤ days_in_month y m then some (y, m, d) else none
    else none
  | _ => none

/-- Weekday abbreviations of `strftime("%a")` in the C locale, indexed with
Sunday at 0. -/
def WEEKDAYS : List (List Char) :=
  ["Sun", "Mon", "Tue", "Wed", "Thu", "Fri", "Sat"].map String.toList

/-- Month abbreviations of `strftime("%b")` in the C locale. -/
def MONTHS : List (List Char) :=
  ["Jan", "Feb", "Mar", "Apr", "May", "Jun", "Jul", "Aug", "Sep", "Oct", "Nov", "Dec"].map
    String.toList

/-- Day of week of a proleptic-Gregorian date (Sakamoto's method), 0 for
Sunday, matching `date.strftime("%a")`. -/
def weekday_index (y m d : Nat) : Nat :=
  let t := [0, 3, 2, 5, 0, 3, 5, 1, 4, 6, 2, 4]
  let y2 := if m < 3 then y - 1 else y
  (y2 + y2 / 4 - y2 / 100 + y2 / 400 + t.getD (m - 1) 0 + d) % 7

/-- `d.strftime("%a, %d %b %Y 00:00:00 +0000")`: RFC-822-style rendering of a
parsed article date at midnight UTC (`%d` is zero-padded to two digits; `%Y`
is rendered without padding, as glibc does — all four-digit parsed years
render identically either way). -/
def rfc822_midnight (y m d : Nat) : List Char :=
  WEEKDAYS.getD (weekday_index y m d) []
    ++ ", ".toList
    ++ (if d < 10 then ['0'] else []) ++ (Nat.toDigits 10 d)
    ++ " ".toList
    ++ MONTHS.getD (m - 1) []
    ++ " ".toList
    ++ (Nat.toDigits 10 y)
    ++ " 00:00:00 +0000".toList

/-- The `pubDate` computation of the `make_rss` loop: parse the article date as
`YYYY-MM-DD` and reformat it, falling back to the feed generation timestamp
`now` when parsing fails (the bare `except`). -/
def rss_pub_date (now : List Char) (date : String) : List Char :=
  match parse_ymd date.toList with
  | some (y, m, d) => rfc822_midnight y m d
  | none => now

/-- One `<item>` of the RSS feed, field by field. -/
structure RssItem where
  title : List Char
  link : List Char
  guid : List Char
  descr : List Char
  pubDate : List Char
deriving DecidableEq, Repr

/-- The fields of one RSS item as computed in the `make_rss` loop (`guid` is
the escaped link; the description default never fires for store records, which
always carry `desc`). -/
def rss_item (now : List Char) (a : Article) : RssItem :=
  { title := escape a.title.toList
    link := escape a.url.toList
    guid := escape a.url.toList
    descr := escape a.desc.toList
    pubDate := rss_pub_date now a.date }

/-- The RSS items in feed order: one per article, sorted by date descending. -/
def make_rss_items (now : List Char) (articles : List Article) : List RssItem :=
  (sortByDateDesc articles).map (rss_item now)

/-- Textual rendering of one RSS `<item>` block. -/
def rss_item_text (it : RssItem) : List Char :=
  "\n    <item>\n      <title>".toList ++ it.title
    ++ "</title>\n      <link>".toList ++ it.link
    ++ "</link>\n      <guid>".toList ++ it.guid
    ++ "</guid>\n      <description>".toList ++ it.descr
    ++ "</description>\n      <pubDate>".toList ++ it.pubDate
    ++ "</pubDate>\n    </item>\n".toList

/-- `make_rss`: channel shell around the concatenated items, with `now` as
`lastBuildDate`. -/
def make_rss (now : List Char) (articles : List Article) : List Char :=
  "<?xml version=\"1.0\" encoding=\"UTF-8\"?>\n<rss version=\"2.0\">\n  <channel>\n    <title>Insight Chronicles</title>\n    <link>".toList
    ++ SITE_URL.toList
    ++ "/</link>\n    <description>Independent long-form analysis on history, geopolitics, and technology.</description>\n    <language>en</language>\n    <lastBuildDate>".toList
    ++ now
    ++ "</lastBuildDate>\n".toList
    ++ ((make_rss_items now articles).map rss_item_text).flatten
    ++ "\n  </channel>\n</rss>\n".toList

/-- Category membership as worded by spec section 3 ("determined dynamically by
substring match against the article's `tags` sequence"): the category key
occurs as a substring of some tag.  This definition follows the spec's words,
for comparison with `make_category_page_articles`, whose filter is taken from
the source (`tag_name in a.get("tags", [])`, exact element membership). -/
def spec_substring_member (tag_name : String) (tags : List String) : Bool :=
  tags.any (fun t => containsSub tag_name.toList t.toList)

/-- Draft used twice in one batch to exhibit a same-batch duplicate slug. -/
def exC1_draft : Draft :=
  Draft.mk "T" "D" "a.html" "2025-01-01" "t.webp" none none "<p>x</p>"

/-- Fresh-slug draft for the amended uniqueness statement. -/
def exC1w_draft : Draft :=
  Draft.mk "W" "D" "b.html" "2025-01-02" "t.webp" none none "<p>y</p>"

/-- Article whose single tag strictly contains the category key `History`. -/
def exC2_article : Article :=
  Article.mk "T" "s.html" "u" "d" "2025-01-01" "t" "t" ["AncientHistory"] ""

/-- Article tagged exactly with the category key `History`. -/
def exC2w_article : Article :=
  Article.mk "T" "s.html" "u" "d" "2025-01-01" "t" "t" ["History"] ""

/-- Template consisting of exactly the TITLE placeholder. -/
def exC3_template : List Char := "\x7b\x7bTITLE\x7d\x7d".toList

/-- Draft whose title value is the CONTENT placeholder token. -/
def exC3_draft : Draft :=
  Draft.mk "\x7b\x7bCONTENT\x7d\x7d" "" "" "" "" none none "X"

/-- Draft whose title value is the TITLE placeholder token itself. -/
def exC3_self_draft : Draft :=
  Draft.mk "\x7b\x7bTITLE\x7d\x7d" "" "" "" "" none none "X"

/-- Fresh draft published against an empty store. -/
def exC4_draft : Draft :=
  Draft.mk "T" "D" "a.html" "2025-01-01" "t.webp" none none "<p>x</p>"

/-- Store record occupying slug `a.html`. -/
def exC5_article : Article :=
  Article.mk "Old" "a.html" "https://insight-chronicles.com/a.html" "D" "2024-01-01"
    "t.webp" "t.webp" [] "<p>old</p>"

/-- Draft colliding with the existing slug `a.html`. -/
def exC5_draft : Draft :=
  Draft.mk "New" "D2" "a.html" "2025-01-01" "t2.webp" none none "<p>new</p>"

/-- Older article for the index-ordering statement. -/
def exC6_old : Article :=
  Article.mk "Old" "old.html" "u" "d" "2024-05-05" "t" "t" [] ""

/-- Newer article for the index-ordering statement. -/
def exC6_new : Article :=
  Article.mk "New" "new.html" "u" "d" "2025-05-05" "t" "t" [] ""

/-- Article with a well-formed `YYYY-MM-DD` date. -/
def exC8_good : Article :=
  Article.mk "G" "g.html" "u" "d" "2025-01-01" "t" "t" [] ""

/-- Article with an unparsable date. -/
def exC8_bad : Article :=
  Article.mk "B" "b.html" "u" "d" "not-a-date" "t" "t" [] ""

/-- Homepage content before the auto-managed region. -/
def exC9_pre : List Char := "<html>".toList

/-- Stale content between the markers. -/
def exC9_mid : List Char := "old".toList

/-- Homepage content after the auto-managed region. -/
def exC9_post : List Char := "</html>".toList

/-- Article whose title carries a `\D` escape, which `pattern.sub` rejects
when compiling the replacement template. -/
def exC9_bad_article : Article :=
  Article.mk "a\\Db" "s.html" "u" "d" "2025-01-01" "t" "t" [] ""

/-- Article with four tags. -/
def exC10_a : Article :=
  Article.mk "T" "s" "u" "d" "2025-01-01" "t" "t" ["a", "b", "c", "d"] ""

/-- Article identical to `exC10_a` except in its fourth tag. -/
def exC10_b : Article :=
  Article.mk "T" "s" "u" "d" "2025-01-01" "t" "t" ["a", "b", "c", "e"] ""

/-- A full occurrence of the pattern is replaced in one pass; occurrences
inside the replacement value are not rescanned by that pass. -/
theorem replaceAll_self (pat repl : List Char) (h : pat ≠ []) :
    replaceAll pat repl pat = repl := by
  match pat, h with
  | c :: ps, _ =>
    simp [replaceAll, replaceAllAux, List.isPrefixOf_iff_prefix, List.drop_length]

/-- `findSub` returns the position of a match that no earlier position
matches. -/
theorem findSub_eq_some_of (pat : List Char) :
    ∀ (s : List Char) (i : Nat),
      (∀ j, j < i → ¬ (pat.isPrefixOf (s.drop j) = true)) →
      pat.isPrefixOf (s.drop i) = true → findSub pat s = some i := by
  intro s
  induction s with
  | nil =>
    intro i hmin hi
    cases i with
    | zero =>
      simp only [List.drop_zero] at hi
      simp [findSub, hi]
    | succ k =>
      exact absurd (by simpa using hi) (by simpa using hmin 0 (Nat.succ_pos k))
  | cons c rest ih =>
    intro i hmin hi
    cases i with
    | zero =>
      simp only [List.drop_zero] at hi
      simp [findSub, hi]
    | succ k =>
      have h0 : ¬ (pat.isPrefixOf (c :: rest) = true) := by
        simpa using hmin 0 (Nat.succ_pos k)
      have ihk : findSub pat rest = some k := by
        apply ih
        · intro j hj
          simpa using hmin (j + 1) (Nat.succ_lt_succ hj)
        · simpa using hi
      simp [findSub, h0, ihk]

/-- `findSub` misses exactly when no position matches. -/
theorem findSub_eq_none_of (pat : List Char) :
    ∀ s : List Char, (∀ j, ¬ (pat.isPrefixOf (s.drop j) = true)) →
      findSub pat s = none := by
  intro s
  induction s with
  | nil =>
    intro h
    have h0 := h 0
    simp only [List.drop_zero] at h0
    simp [findSub, h0]
  | cons c rest ih =>
    intro h
    have h0 := h 0
    simp only [List.drop_zero] at h0
    have hrest : findSub pat rest = none := ih (fun j => by simpa using h (j + 1))
    simp [findSub, h0, hrest]

/-- A list is a Boolean prefix of itself followed by anything. -/
theorem isPrefixOf_self_append (pat t : List Char) :
    pat.isPrefixOf (pat ++ t) = true := by
  simp [List.isPrefixOf_iff_prefix]

/-- A Boolean prefix is no longer than the list it prefixes. -/
theorem isPrefixOf_length_le {pat s : List Char} (h : pat.isPrefixOf s = true) :
    pat.length ≤ s.length :=
  (List.isPrefixOf_iff_prefix.mp h).length_le

/-- Dropping past an initial segment, in one step. -/
theorem drop_append_left {α : Type} (l₁ l₂ : List α) (k : Nat) :
    (l₁ ++ l₂).drop (l₁.length + k) = l₂.drop k := by
  rw [← List.drop_drop, List.drop_left]

/-- `reSubAux` leaves a subject without the start marker unchanged, for any
fuel. -/
theorem reSubAux_no_start (startPat endPat : List Char) (chunks : List ReplChunk)
    (fuel : Nat) (s : List Char) (h : findSub startPat s = none) :
    reSubAux startPat endPat chunks fuel s = s := by
  cases fuel with
  | zero => rfl
  | succ n => simp [reSubAux, h]

/-- Scanning a backslash-free suffix extends the pending literal with the
whole suffix. -/
theorem ptGo_no_backslash :
    ∀ (fuel : Nat) (s : List Char) (lit : List Char), s.length ≤ fuel →
      (∀ c ∈ s, c ≠ '\\') → ptGo fuel lit s = .ok (flushLit (lit ++ s)) := by
  intro fuel
  induction fuel with
  | zero =>
    intro s lit hf hnb
    have hs : s = [] := List.length_eq_zero.mp (Nat.le_zero.mp hf)
    subst hs
    simp [ptGo]
  | succ n ih =>
    intro s lit hf hnb
    cases s with
    | nil => simp [ptGo]
    | cons c rest =>
      have hc : ¬ (c = '\\') := hnb c (List.mem_cons_self c rest)
      simp only [ptGo]
      rw [if_neg hc]
      rw [ih rest (lit ++ [c]) (by simpa using hf)
        (fun d hd => hnb d (List.mem_cons_of_mem c hd))]
      simp

/-- A non-empty backslash-free replacement compiles to a single literal
chunk. -/
theorem parse_template1_no_backslash (repl : List Char) (hne : repl ≠ [])
    (hnb : ∀ c ∈ repl, c ≠ '\\') :
    parse_template1 repl = .ok [ReplChunk.lit repl] := by
  rw [parse_template1, ptGo_no_backslash repl.length repl [] (Nat.le_refl _) hnb]
  simp [flushLit, hne]

/-- A single-literal template expands to that literal at every match. -/
theorem expand_template_lit (whole mid l : List Char) :
    expand_template whole mid [ReplChunk.lit l] = l := by
  simp [expand_template]

/-- The article list built by the publish loop: the initial list followed by
one record per draft whose slug misses the pre-computed slug set. -/
theorem publishGo_fst (template : List Char) (existing : List String) :
    ∀ (ds : List Draft) (arts : List Article) (writes : List (String × List Char)) (n : Nat),
      (publishGo template existing arts writes n ds).1
        = arts ++ (ds.filter (fun d => decide (d.slug ∉ existing))).map draft_record := by
  intro ds
  induction ds with
  | nil =>
    intro arts writes n
    simp [publishGo]
  | cons d ds ih =>
    intro arts writes n
    by_cases hm : d.slug ∈ existing
    · simp [publishGo, hm, ih]
    · simp [publishGo, hm, ih]

/-- The file writes of the publish loop: one write per draft whose slug misses
the pre-computed slug set. -/
theorem publishGo_writes (template : List Char) (existing : List String) :
    ∀ (ds : List Draft) (arts : List Article) (writes : List (String × List Char)) (n : Nat),
      (publishGo template existing arts writes n ds).2.1
        = writes ++ (ds.filter (fun d => decide (d.slug ∉ existing))).map
            (fun d => (d.slug, build_article_html template d)) := by
  intro ds
  induction ds with
  | nil =>
    intro arts writes n
    simp [publishGo]
  | cons d ds ih =>
    intro arts writes n
    by_cases hm : d.slug ∈ existing
    · simp [publishGo, hm, ih]
    · simp [publishGo, hm, ih]

instance : IsTotal Article (fun a b => dateKey b ≤ dateKey a) :=
  ⟨fun a b => le_total (dateKey b) (dateKey a)⟩

instance : IsTrans Article (fun a b => dateKey b ≤ dateKey a) :=
  ⟨fun _ _ _ hab hbc => le_trans hbc hab⟩

/-- The date-descending sort is a permutation of its input. -/
theorem sortByDateDesc_perm (articles : List Article) :
    List.Perm (sortByDateDesc articles) articles :=
  List.perm_insertionSort _ articles

/-- The date-descending sort keeps the list length. -/
theorem length_sortByDateDesc (articles : List Article) :
    (sortByDateDesc articles).length = articles.length :=
  (sortByDateDesc_perm articles).length_eq

/-- The date-descending sort is sorted: date keys are non-increasing along the
output. -/
theorem sortByDateDesc_sorted (articles : List Article) :
    (sortByDateDesc articles).Pairwise (fun a b => dateKey b ≤ dateKey a) :=
  List.sorted_insertionSort _ articles

/-- C1 counterexample: two drafts in one batch with the same new slug are both
published, because `existing_slugs` is computed once before the loop and never
extended; the resulting store holds two records with slug `a.html`. -/
theorem publish_drafts_same_batch_duplicate_slug :
    ((publish_drafts [] [] [exC1_draft, exC1_draft]).1.map Article.slug
      = ["a.html", "a.html"])
    ∧ ¬ ((publish_drafts [] [] [exC1_draft, exC1_draft]).1.map Article.slug).Nodup := by
  constructor
  · decide
  · decide

/-- C1 (amended): after `publish_drafts`, slugs are unique across the store
provided the store's slugs were unique at the start of the run and no two
drafts of the batch carry the same slug; a batch with two drafts sharing a new
slug publishes both and breaks uniqueness. -/
theorem publish_drafts_slug_nodup (template : List Char) (articles : List Article)
    (drafts : List Draft) (h1 : (articles.map Article.slug).Nodup)
    (h2 : (drafts.map Draft.slug).Nodup) :
    (((publish_drafts template articles drafts).1).map Article.slug).Nodup := by
  rw [publish_drafts, publishGo_fst, List.map_append, List.nodup_append]
  refine ⟨h1, ?_, ?_⟩
  · rw [List.map_map]
    have hc : (Article.slug ∘ draft_record) = Draft.slug := by
      funext d
      rfl
    rw [hc]
    exact h2.sublist ((List.filter_sublist _).map Draft.slug)
  · intro x hx1 hx2
    rw [List.map_map] at hx2
    obtain ⟨d, hd, hxd⟩ := List.mem_map.mp hx2
    have hf := (List.mem_filter.mp hd).2
    have hnot : d.slug ∉ articles.map Article.slug := of_decide_eq_true hf
    exact hnot (by simpa [← hxd] using hx1)

/-- C1 witness: the amended uniqueness theorem applied to a concrete
single-draft batch over an empty store. -/
theorem publish_drafts_slug_nodup_witness :
    (([exC1w_draft].map Draft.slug).Nodup)
    ∧ (((publish_drafts [] [] [exC1w_draft]).1).map Article.slug).Nodup :=
  ⟨by decide, publish_drafts_slug_nodup [] [] [exC1w_draft] (by decide) (by decide)⟩

/-- C3 counterexample: the TITLE replacement value is the literal token
`{{CONTENT}}`; the later CONTENT pass substitutes it, so it does not survive
verbatim in the output document. -/
theorem build_article_html_later_token_resubstituted :
    build_article_html exC3_template exC3_draft = "X".toList
    ∧ build_article_html exC3_template exC3_draft ≠ "\x7b\x7bCONTENT\x7d\x7d".toList := by
  constructor
  · decide
  · decide

/-- C3 (amended): substitution is a single replace-all pass per key, applied in
the fixed order TITLE, DESCRIPTION, SLUG, DATE, THUMB, THUMB_OG, TAGLINE,
CONTENT.  A pass never rescans its own replacement value (first conjunct), and
a token of an already-processed key survives to the output (third conjunct),
but a token of a key processed later is substituted by that later pass. -/
theorem build_article_html_single_pass_per_key :
    (∀ (pat repl : List Char), pat ≠ [] → replaceAll pat repl pat = repl)
    ∧ (∀ (template : List Char) (d : Draft),
        build_article_html template d
          = replaceAll "\x7b\x7bCONTENT\x7d\x7d".toList d.content.toList
              (replaceAll "\x7b\x7bTAGLINE\x7d\x7d".toList (tagline d).toList
                (replaceAll "\x7b\x7bTHUMB_OG\x7d\x7d".toList (d.thumb_og.getD d.thumb).toList
                  (replaceAll "\x7b\x7bTHUMB\x7d\x7d".toList d.thumb.toList
                    (replaceAll "\x7b\x7bDATE\x7d\x7d".toList d.date.toList
                      (replaceAll "\x7b\x7bSLUG\x7d\x7d".toList d.slug.toList
                        (replaceAll "\x7b\x7bDESCRIPTION\x7d\x7d".toList d.desc.toList
                          (replaceAll "\x7b\x7bTITLE\x7d\x7d".toList d.title.toList
                            template))))))))
    ∧ build_article_html exC3_template exC3_self_draft = "\x7b\x7bTITLE\x7d\x7d".toList := by
  refine ⟨replaceAll_self, ?_, by decide⟩
  intro template d
  simp only [build_article_html, replacements, List.foldl_cons, List.foldl_nil]

/-- C3 witness: the single-pass theorem applied to a concrete one-character
pattern. -/
theorem build_article_html_single_pass_per_key_witness :
    (['a'] : List Char) ≠ [] ∧ replaceAll ['a'] ['b'] ['a'] = ['b'] :=
  ⟨by decide, build_article_html_single_pass_per_key.1 ['a'] ['b'] (by decide)⟩

/-- C4: publishing a draft whose slug is not in the store appends exactly one
record — with `url` equal to the site base plus the slug and `content_html`
equal to the draft's raw content — and writes exactly one file at the slug's
path whose content is the template with the eight placeholders substituted
(the TAGLINE value being the comma-joined tag list, or the site default when
the draft has no tags). -/
theorem publish_drafts_new_slug (template : List Char) (articles : List Article)
    (d : Draft) (h : d.slug ∉ articles.map Article.slug) :
    publish_drafts template articles [d]
      = (articles ++ [draft_record d], [(d.slug, build_article_html template d)], 1)
    ∧ (publish_drafts template articles [d]).1.length = articles.length + 1
    ∧ (draft_record d).url = SITE_URL ++ "/" ++ d.slug
    ∧ (draft_record d).content_html = d.content
    ∧ tagline d
        = (if String.intercalate ", " (d.tags.getD []) = "" then "Insight Chronicles"
           else String.intercalate ", " (d.tags.getD []))
    ∧ replacements d
        = [("\x7b\x7bTITLE\x7d\x7d".toList, d.title.toList),
           ("\x7b\x7bDESCRIPTION\x7d\x7d".toList, d.desc.toList),
           ("\x7b\x7bSLUG\x7d\x7d".toList, d.slug.toList),
           ("\x7b\x7bDATE\x7d\x7d".toList, d.date.toList),
           ("\x7b\x7bTHUMB\x7d\x7d".toList, d.thumb.toList),
           ("\x7b\x7bTHUMB_OG\x7d\x7d".toList, (d.thumb_og.getD d.thumb).toList),
           ("\x7b\x7bTAGLINE\x7d\x7d".toList, (tagline d).toList),
           ("\x7b\x7bCONTENT\x7d\x7d".toList, d.content.toList)] := by
  have he : publish_drafts template articles [d]
      = (articles ++ [draft_record d], [(d.slug, build_article_html template d)], 1) := by
    simp [publish_drafts, publishGo, h]
  refine ⟨he, ?_, rfl, rfl, ?_, rfl⟩
  · rw [he]
    simp
  · simp [tagline]

/-- C4 witness: a concrete fresh-slug draft published against an empty
store. -/
theorem publish_drafts_new_slug_witness :
    exC4_draft.slug ∉ ([] : List Article).map Article.slug
    ∧ publish_drafts [] [] [exC4_draft]
        = ([draft_record exC4_draft], [("a.html", build_article_html [] exC4_draft)], 1) := by
  refine ⟨by decide, ?_⟩
  have h := (publish_drafts_new_slug [] [] exC4_draft (by decide)).1
  simpa using h

/-- C5: a draft whose slug is already in the store at the start of the run is
silently skipped — the article sequence is returned unchanged, no file write
happens for that slug, and the loop reports nothing (the embedding returns
normally with count 0; the source has no error or warning channel at all on
this path). -/
theorem publish_drafts_existing_slug_skipped (template : List Char)
    (articles : List Article) :
    (∀ d : Draft, d.slug ∈ articles.map Article.slug →
        publish_drafts template articles [d] = (articles, [], 0))
    ∧ (∀ (drafts : List Draft) (s : String), s ∈ articles.map Article.slug →
        ∀ w ∈ (publish_drafts template articles drafts).2.1, w.1 ≠ s) := by
  constructor
  · intro d hd
    simp [publish_drafts, publishGo, hd]
  · intro drafts s hs w hw
    rw [publish_drafts, publishGo_writes] at hw
    simp only [List.nil_append] at hw
    obtain ⟨d, hd, hwd⟩ := List.mem_map.mp hw
    have hf := (List.mem_filter.mp hd).2
    have hnot : d.slug ∉ articles.map Article.slug := of_decide_eq_true hf
    intro hws
    apply hnot
    have hds : d.slug = s := by rw [← hws, ← hwd]
    rw [hds]
    exact hs

/-- C5 witness: a concrete colliding draft against a one-article store. -/
theorem publish_drafts_existing_slug_skipped_witness :
    exC5_draft.slug ∈ [exC5_article].map Article.slug
    ∧ publish_drafts [] [exC5_article] [exC5_draft] = ([exC5_article], [], 0) :=
  ⟨by decide,
   (publish_drafts_existing_slug_skipped [] [exC5_article]).1 exC5_draft (by decide)⟩

/-- C2 counterexample: the category key `History` matches the tag
`AncientHistory` under the spec's substring wording, yet the article is not
selected for the History category page — the source filter is exact element
membership. -/
theorem category_membership_not_substring :
    spec_substring_member "History" exC2_article.tags = true
    ∧ exC2_article ∉ make_category_page_articles "History" [exC2_article] := by
  constructor
  · decide
  · decide

/-- C2 (amended): an article appears on a category's page exactly when the
category key is an element of its `tags` sequence (exact string equality, as
section 4.4 states — not substring match), and the selected articles are
sorted by date descending (non-increasing date keys along the page). -/
theorem category_page_membership_exact (tag_name : String) (articles : List Article) :
    (∀ a : Article,
        a ∈ make_category_page_articles tag_name articles ↔ a ∈ articles ∧ tag_name ∈ a.tags)
    ∧ (make_category_page_articles tag_name articles).Pairwise
        (fun a b => dateKey b ≤ dateKey a) := by
  constructor
  · intro a
    rw [make_category_page_articles]
    rw [(sortByDateDesc_perm _).mem_iff]
    simp [List.mem_filter]
  · exact sortByDateDesc_sorted _

/-- C2 witness: the amended membership theorem applied to a concrete article
tagged exactly `History`. -/
theorem category_page_membership_exact_witness :
    exC2w_article ∈ make_category_page_articles "History" [exC2w_article] :=
  ((category_page_membership_exact "History" [exC2w_article]).1 exC2w_article).mpr
    (by decide)

/-- C6: in the articles-index page the cards are emitted in the order of the
date-descending sort, and whenever article A's date string compares greater
than article B's, A's position precedes B's. -/
theorem articles_page_date_ordering (articles : List Article) :
    make_articles_page_cards articles = (sortByDateDesc articles).map article_page_card
    ∧ (∀ (i j : Nat) (hi : i < (sortByDateDesc articles).length)
         (hj : j < (sortByDateDesc articles).length),
        dateKey ((sortByDateDesc articles).get ⟨j, hj⟩)
            < dateKey ((sortByDateDesc articles).get ⟨i, hi⟩) →
        i < j) := by
  constructor
  · rfl
  · intro i j hi hj hlt
    by_contra hn
    rcases Nat.lt_or_ge j i with hji | hij
    · have hp := List.pairwise_iff_get.mp (sortByDateDesc_sorted articles)
        ⟨j, hj⟩ ⟨i, hi⟩ hji
      exact absurd hlt (not_lt_of_le hp)
    · have : i = j := Nat.le_antisymm hij (Nat.le_of_not_lt hn)
      subst this
      exact lt_irrefl _ hlt

/-- C6 witness: the ordering theorem applied to a concrete two-article list
whose sorted form puts the 2025 article first. -/
theorem articles_page_date_ordering_witness :
    dateKey ((sortByDateDesc [exC6_old, exC6_new]).get ⟨1, by decide⟩)
        < dateKey ((sortByDateDesc [exC6_old, exC6_new]).get ⟨0, by decide⟩)
    ∧ (0 : Nat) < 1 :=
  ⟨by decide,
   (articles_page_date_ordering [exC6_old, exC6_new]).2 0 1 (by decide) (by decide)
     (by decide)⟩

/-- C7: the sitemap URL list has exactly `3 + |CATEGORIES|` fixed entries
followed by exactly one entry per article; the article entries follow the
date-descending sort of the store. -/
theorem sitemap_entry_count (articles : List Article) :
    (make_sitemap_urls articles).length = 3 + CATEGORIES.length + articles.length
    ∧ (make_sitemap_urls articles).drop (3 + CATEGORIES.length)
        = (sortByDateDesc articles).map sitemap_article_url
    ∧ (make_sitemap_urls articles).take (3 + CATEGORIES.length)
        = sitemap_fixed ++ CATEGORIES.map (fun c => sitemap_category_url c.2)
    ∧ (sortByDateDesc articles).Pairwise (fun a b => dateKey b ≤ dateKey a) := by
  refine ⟨?_, ?_, ?_, sortByDateDesc_sorted articles⟩
  · simp only [make_sitemap_urls, List.length_append, List.length_map,
      length_sortByDateDesc]
    simp [sitemap_fixed, CATEGORIES]
  · rw [make_sitemap_urls, List.drop_left']
    simp [sitemap_fixed, CATEGORIES]
  · rw [make_sitemap_urls, List.take_left']
    simp [sitemap_fixed, CATEGORIES]

/-- C8: every item of the feed belongs to an article of the store, and its
`pubDate` is the RFC-822-style reformatting of the article's date when that
date parses as `YYYY-MM-DD`, and the feed generation timestamp `now` otherwise
(the bare `except` swallows the parse failure; nothing else is reported). -/
theorem rss_pub_date_parse_or_fallback (now : List Char) (articles : List Article) :
    ∀ it ∈ make_rss_items now articles,
      ∃ a, a ∈ articles ∧ it = rss_item now a
        ∧ it.pubDate = rss_pub_date now a.date
        ∧ ((∃ y m d, parse_ymd a.date.toList = some (y, m, d)
              ∧ it.pubDate = rfc822_midnight y m d)
           ∨ (parse_ymd a.date.toList = none ∧ it.pubDate = now)) := by
  intro it hit
  rw [make_rss_items] at hit
  obtain ⟨a, ha, hia⟩ := List.mem_map.mp hit
  refine ⟨a, (sortByDateDesc_perm articles).mem_iff.mp ha, hia.symm, ?_, ?_⟩
  · rw [← hia]
    rfl
  · rw [← hia]
    simp only [rss_item]
    rcases hp : parse_ymd a.date.toList with _ | ⟨y, m, d⟩
    · exact Or.inr ⟨rfl, by simp only [rss_pub_date, hp]⟩
    · exact Or.inl ⟨y, m, d, rfl, by simp only [rss_pub_date, hp]⟩

/-- C8 witness: the pubDate theorem applied to a concrete two-article feed,
one date well-formed and one unparsable; the well-formed item reformats, the
other falls back to `now`. -/
theorem rss_pub_date_parse_or_fallback_witness :
    (rss_item "NOW".toList exC8_good ∈ make_rss_items "NOW".toList [exC8_good, exC8_bad])
    ∧ (∃ a, a ∈ [exC8_good, exC8_bad] ∧ rss_item "NOW".toList exC8_good = rss_item "NOW".toList a
        ∧ (rss_item "NOW".toList exC8_good).pubDate = rss_pub_date "NOW".toList a.date
        ∧ ((∃ y m d, parse_ymd a.date.toList = some (y, m, d)
              ∧ (rss_item "NOW".toList exC8_good).pubDate = rfc822_midnight y m d)
           ∨ (parse_ymd a.date.toList = none
              ∧ (rss_item "NOW".toList exC8_good).pubDate = "NOW".toList))) :=
  ⟨by decide,
   rss_pub_date_parse_or_fallback "NOW".toList [exC8_good, exC8_bad]
     (rss_item "NOW".toList exC8_good) (by decide)⟩

/-- C10: a homepage card depends only on the first three tags (articles equal
in every other rendered field and in `tags[:3]` render identical cards, so
tags beyond the third are silently omitted), and the span list of a card has
exactly `min 3 |tags|` entries, each rendering one of the first three tags. -/
theorem homepage_card_tags_truncated :
    (∀ a b : Article, a.title = b.title → a.slug = b.slug → a.desc = b.desc →
        a.date = b.date → a.thumb = b.thumb → a.tags.take 3 = b.tags.take 3 →
        homepage_card a = homepage_card b)
    ∧ (∀ tags : List String,
        (homepage_tag_span_list tags).length = min 3 tags.length
        ∧ (homepage_tag_span_list tags).length ≤ 3
        ∧ ∀ s ∈ homepage_tag_span_list tags, ∃ t ∈ tags.take 3, s = tag_span t) := by
  constructor
  · intro a b ht hs hd hdate hthumb htags
    simp only [homepage_card, homepage_tag_spans, homepage_tag_span_list, ht, hs, hd,
      hdate, hthumb, htags]
  · intro tags
    refine ⟨?_, ?_, ?_⟩
    · simp [homepage_tag_span_list, List.length_take]
    · simp [homepage_tag_span_list, List.length_take]
    · intro s hss
      obtain ⟨t, htm, hts⟩ := List.mem_map.mp hss
      exact ⟨t, htm, hts.symm⟩

/-- C10 witness: two articles differing only in their fourth tag render the
same homepage card; a four-tag list yields exactly three spans. -/
theorem homepage_card_tags_truncated_witness :
    homepage_card exC10_a = homepage_card exC10_b
    ∧ (homepage_tag_span_list exC10_a.tags).length = 3 :=
  ⟨homepage_card_tags_truncated.1 exC10_a exC10_b rfl rfl rfl rfl rfl (by decide),
   by decide⟩


set_option maxRecDepth 16384 in
/-- C9 counterexample: with an article whose title contains the `\D` escape,
the rendered replacement makes `pattern.sub` raise `re.error` while compiling
its template, so on a homepage that does contain both markers the region is
not replaced at all — the exception aborts the run before anything is written
— contradicting the claim that the marked region is replaced (and that the
only failure-free path needs no error). -/
theorem update_index_html_raises_on_backslash_escape :
    update_index_html
        (some (exC9_pre ++ (AUTO_START ++ (exC9_mid ++ (AUTO_END ++ exC9_post)))))
        [exC9_bad_article]
      = .error ReError.templateError := by
  rfl

/-- C9 (amended): the homepage update is a silent no-op when the file is
missing or either marker is absent (the content, when present, is returned
byte-for-byte unchanged and `pattern.sub` is never invoked, so no exception
can occur); when the document decomposes around one occurrence of each marker
and the rendered cards contain no backslash — so that `pattern.sub` treats
the replacement literally — only the region between the markers is replaced
by the fresh cards and the surrounding content is unchanged.  (A backslash in
a card field changes this: `pattern.sub` processes the replacement as a
template, expanding group references such as `\1` and raising `re.error` on a
bad escape, which aborts the run.) -/
theorem update_index_marker_region (articles : List Article) :
    (update_index_html none articles = .ok none)
    ∧ (∀ html : List Char,
        containsSub AUTO_START html = false ∨ containsSub AUTO_END html = false →
        update_index_html (some html) articles = .ok (some html))
    ∧ (∀ pre mid post : List Char,
        (∀ c ∈ make_homepage_cards articles 6, c ≠ '\\') →
        (∀ i, i < (pre ++ (AUTO_START ++ (mid ++ (AUTO_END ++ post)))).length →
          AUTO_START.isPrefixOf
              ((pre ++ (AUTO_START ++ (mid ++ (AUTO_END ++ post)))).drop i) = true →
          i = pre.length) →
        (∀ i, i < (pre ++ (AUTO_START ++ (mid ++ (AUTO_END ++ post)))).length →
          AUTO_END.isPrefixOf
              ((pre ++ (AUTO_START ++ (mid ++ (AUTO_END ++ post)))).drop i) = true →
          i = pre.length + AUTO_START.length + mid.length) →
        update_index_html (some (pre ++ (AUTO_START ++ (mid ++ (AUTO_END ++ post))))) articles
          = .ok (some (pre ++ (AUTO_START ++ ("\n".toList ++ (make_homepage_cards articles 6
              ++ ("\n".toList ++ (AUTO_END ++ post)))))))) := by
  refine ⟨rfl, ?_, ?_⟩
  · intro html hmiss
    rcases hmiss with hm | hm
    · simp [update_index_html, hm]
    · simp [update_index_html, hm]
  · intro pre mid post hnb hS hE
    have hS0 : 0 < AUTO_START.length := by decide
    have hE0 : 0 < AUTO_END.length := by decide
    have hSnil : AUTO_START.isPrefixOf ([] : List Char) = false := by decide
    have hlen : (pre ++ (AUTO_START ++ (mid ++ (AUTO_END ++ post)))).length
        = pre.length + (AUTO_START.length + (mid.length + (AUTO_END.length + post.length))) := by
      simp [List.length_append]
    have hfS : findSub AUTO_START (pre ++ (AUTO_START ++ (mid ++ (AUTO_END ++ post))))
        = some pre.length := by
      apply findSub_eq_some_of
      · intro j hj hp
        have hb : j < (pre ++ (AUTO_START ++ (mid ++ (AUTO_END ++ post)))).length := by
          omega
        have := hS j hb hp
        omega
      · rw [List.drop_left]
        exact isPrefixOf_self_append _ _
    have hdropSE : (pre ++ (AUTO_START ++ (mid ++ (AUTO_END ++ post)))).drop
        (pre.length + AUTO_START.length) = mid ++ (AUTO_END ++ post) := by
      rw [drop_append_left pre _ AUTO_START.length, List.drop_left]
    have hfE : findSub AUTO_END (mid ++ (AUTO_END ++ post)) = some mid.length := by
      apply findSub_eq_some_of
      · intro j hj hp
        have hlift : (mid ++ (AUTO_END ++ post)).drop j
            = (pre ++ (AUTO_START ++ (mid ++ (AUTO_END ++ post)))).drop
                (pre.length + (AUTO_START.length + j)) := by
          rw [drop_append_left pre _ (AUTO_START.length + j),
            drop_append_left AUTO_START _ j]
        rw [hlift] at hp
        have hb : pre.length + (AUTO_START.length + j)
            < (pre ++ (AUTO_START ++ (mid ++ (AUTO_END ++ post)))).length := by
          omega
        have := hE _ hb hp
        omega
      · rw [List.drop_left]
        exact isPrefixOf_self_append _ _
    have htake : (mid ++ (AUTO_END ++ post)).take mid.length = mid := List.take_left _ _
    have htail : (mid ++ (AUTO_END ++ post)).drop (mid.length + AUTO_END.length) = post := by
      rw [drop_append_left mid _ AUTO_END.length, List.drop_left]
    have hfSpost : findSub AUTO_START post = none := by
      apply findSub_eq_none_of
      intro j hp
      have hlift : post.drop j
          = (pre ++ (AUTO_START ++ (mid ++ (AUTO_END ++ post)))).drop
              (pre.length + (AUTO_START.length + (mid.length + (AUTO_END.length + j)))) := by
        rw [drop_append_left pre, drop_append_left AUTO_START, drop_append_left mid,
          drop_append_left AUTO_END]
      rw [hlift] at hp
      by_cases hb : pre.length + (AUTO_START.length + (mid.length + (AUTO_END.length + j)))
          < (pre ++ (AUTO_START ++ (mid ++ (AUTO_END ++ post)))).length
      · have := hS _ hb hp
        omega
      · rw [List.drop_eq_nil_of_le (by omega)] at hp
        rw [hSnil] at hp
        exact Bool.false_ne_true hp
    have hdropE : (pre ++ (AUTO_START ++ (mid ++ (AUTO_END ++ post)))).drop
        (pre.length + (AUTO_START.length + mid.length)) = AUTO_END ++ post := by
      rw [drop_append_left pre _ (AUTO_START.length + mid.length),
        drop_append_left AUTO_START _ mid.length, List.drop_left]
    have hfEfull : findSub AUTO_END (pre ++ (AUTO_START ++ (mid ++ (AUTO_END ++ post))))
        = some (pre.length + (AUTO_START.length + mid.length)) := by
      apply findSub_eq_some_of
      · intro j hj hp
        have hb : j < (pre ++ (AUTO_START ++ (mid ++ (AUTO_END ++ post)))).length := by
          omega
        have := hE j hb hp
        omega
      · rw [hdropE]
        exact isPrefixOf_self_append _ _
    have hcS : containsSub AUTO_START (pre ++ (AUTO_START ++ (mid ++ (AUTO_END ++ post))))
        = true := by
      rw [containsSub, hfS]
      rfl
    have hcE : containsSub AUTO_END (pre ++ (AUTO_START ++ (mid ++ (AUTO_END ++ post))))
        = true := by
      rw [containsSub, hfEfull]
      rfl
    have hrne : homepage_replacement articles ≠ [] := by
      rw [homepage_replacement]
      intro hcon
      have : (AUTO_START ++ "\n".toList ++ make_homepage_cards articles 6
          ++ "\n".toList ++ AUTO_END).length = 0 := by rw [hcon]; rfl
      simp [List.length_append] at this
    have hsb : ∀ c ∈ AUTO_START, c ≠ '\\' := by decide
    have heb : ∀ c ∈ AUTO_END, c ≠ '\\' := by decide
    have hnlb : ∀ c ∈ "\n".toList, c ≠ '\\' := by decide
    have hrnb : ∀ c ∈ homepage_replacement articles, c ≠ '\\' := by
      intro c hc
      rw [homepage_replacement] at hc
      simp only [List.mem_append] at hc
      rcases hc with ((((hc | hc) | hc) | hc) | hc)
      · exact hsb c hc
      · exact hnlb c hc
      · exact hnb c hc
      · exact hnlb c hc
      · exact heb c hc
    have hpt : parse_template1 (homepage_replacement articles)
        = .ok [ReplChunk.lit (homepage_replacement articles)] :=
      parse_template1_no_backslash _ hrne hrnb
    obtain ⟨n, hn⟩ :
        ∃ n, (pre ++ (AUTO_START ++ (mid ++ (AUTO_END ++ post)))).length = n + 1 :=
      ⟨(pre ++ (AUTO_START ++ (mid ++ (AUTO_END ++ post)))).length - 1, by omega⟩
    simp only [update_index_html]
    rw [if_neg (by simp [hcS, hcE])]
    rw [hpt]
    simp only [reSubMarkers]
    rw [hn]
    simp only [reSubAux, hfS, hdropSE, hfE, htake, htail, List.take_left,
      expand_template_lit,
      reSubAux_no_start AUTO_START AUTO_END _ n post hfSpost, Option.some.injEq]
    simp [homepage_replacement, List.append_assoc]

/-- C9 witness: the amended splice theorem applied to a concrete homepage
document with one marked region and an empty (hence backslash-free) card
list. -/
theorem update_index_marker_region_witness :
    update_index_html
        (some (exC9_pre ++ (AUTO_START ++ (exC9_mid ++ (AUTO_END ++ exC9_post))))) []
      = .ok (some (exC9_pre ++ (AUTO_START ++ ("\n".toList ++ (make_homepage_cards [] 6
          ++ ("\n".toList ++ (AUTO_END ++ exC9_post))))))) :=
  (update_index_marker_region []).2.2 exC9_pre exC9_mid exC9_post (by decide) (by decide)
    (by decide)
